import Mathlib

/-!
Formal model of the composable-agents core: the ReAct response parser
(src/agents/backends/react.py), the retry wrapper (src/agents/flow/retry.py),
the tool registrar (src/agents/registrar/registrar.py), and the tool-result
prompt formatting, together with theorems about their behavior.

Python strings are modelled as lists of characters; the helper functions
below reproduce the exact Python string operations the source uses
(str.strip, str.split, str.startswith, str.join).
-/

/-- The characters stripped by Python str.strip with no argument
(ASCII whitespace; the source never feeds other Unicode whitespace). -/
def isPySpace (c : Char) : Bool :=
  c == ' ' || c == '\t' || c == '\n' || c == '\r' || c == '\x0b' || c == '\x0c'

/-- Drop the trailing run of whitespace characters (the right half of
Python str.strip). -/
def dropTrailing : List Char → List Char
  | [] => []
  | c :: rest =>
    match dropTrailing rest with
    | [] => if isPySpace c then [] else [c]
    | x :: xs => c :: x :: xs

/-- Python str.strip with no argument: remove leading and trailing
whitespace. -/
def pyStripL (l : List Char) : List Char :=
  dropTrailing (l.dropWhile isPySpace)

/-- Python str.split(sep) for a one-character separator: no collapsing of
adjacent separators, and the empty string splits to a single empty piece. -/
def splitOnChar (sep : Char) : List Char → List (List Char)
  | [] => [[]]
  | c :: rest =>
    match splitOnChar sep rest with
    | [] => [[]]
    | cur :: others =>
      if c == sep then [] :: cur :: others else (c :: cur) :: others

/-- Python str.startswith. -/
def startsWithL : List Char → List Char → Bool
  | [], _ => true
  | _ :: _, [] => false
  | p :: ps, x :: xs => p == x && startsWithL ps xs

/-- Python "\n".join(lines). -/
def joinNL : List (List Char) → List Char
  | [] => []
  | [l] => l
  | l :: ls => l ++ '\n' :: joinNL ls

/-- Python line.split(tag, 1)[1]; the source only calls it on lines for
which line.startswith(tag) already holds, where it equals dropping the
tag. -/
def dropTag (tag l : List Char) : List Char :=
  l.drop tag.length

/-- The keyword prefix "Thought:" from ReActBackend.__parse. -/
def thoughtTag : List Char := ['T', 'h', 'o', 'u', 'g', 'h', 't', ':']

/-- The keyword prefix "Action:" from ReActBackend.__parse. -/
def actionTag : List Char := ['A', 'c', 't', 'i', 'o', 'n', ':']

/-- The keyword prefix "Action Input:" from ReActBackend.__parse. -/
def actionInputTag : List Char :=
  ['A', 'c', 't', 'i', 'o', 'n', ' ', 'I', 'n', 'p', 'u', 't', ':']

/-- The keyword prefix "Answer:" from ReActBackend.__parse. -/
def answerTag : List Char := ['A', 'n', 's', 'w', 'e', 'r', ':']

/-- JSON values as returned by Python json.loads. -/
inductive JsonVal where
  | null
  | bool (b : Bool)
  | num (n : Int)
  | str (s : String)
  | arr (elems : List JsonVal)
  | obj (fields : List (String × JsonVal))

/-- The exception kinds ReActBackend.__parse can raise: the module-level
FormatException for a missing leading Thought line, the bare
ValueError("Action specified without Action Input"), and the pydantic
ValidationError raised by ReActResponse(**results) when a field has the
wrong shape. -/
inductive ParseErr where
  | formatException
  | valueError (msg : String)
  | validationError

/-- The pydantic model ReActResponse from src/agents/backends/react.py:
Thought is a required str, Action and Answer are Optional[str], and
ActionInput is Optional[Dict[str, Any]]. -/
structure ReActResponse where
  Thought : String
  Action : Option String
  ActionInput : Option (List (String × JsonVal))
  Answer : Option String

/-- Storing the result of json.loads into results["Action Input"]: a JSON
null is the Python value None, indistinguishable from the slot never having
been assigned. -/
def slotOfJson : JsonVal → Option JsonVal
  | JsonVal.null => none
  | v => some v

/-- Pydantic validation of the ActionInput field against
Optional[Dict[str, Any]]: absent stays absent, a JSON object becomes the
dict, and any other value (string, number, array, bool) raises a
ValidationError. -/
def validateActionInput : Option JsonVal → Except ParseErr (Option (List (String × JsonVal)))
  | none => Except.ok none
  | some (JsonVal.obj fields) => Except.ok (some fields)
  | some _ => Except.error ParseErr.validationError

/-- The while-loop of ReActBackend.__parse (react.py lines 59-79): consume
lines in order, skipping blank lines, recording the last "Action:" and
"Action Input:" remainders, and stopping at the first "Answer:" line, whose
trimmed remainder plus a newline plus the newline-join of all remaining
lines becomes the answer. The parameter j models Python json.loads,
returning none exactly when json.loads raises JSONDecodeError, in which
case the raw trimmed remainder is kept as a string. -/
def scanLines (j : String → Option JsonVal) :
    List (List Char) → Option (List Char) → Option JsonVal →
    Option (List Char) × Option JsonVal × Option (List Char)
  | [], action, input => (action, input, none)
  | line :: rest, action, input =>
    if pyStripL line == [] then
      scanLines j rest action input
    else if startsWithL actionTag line then
      scanLines j rest (some (pyStripL (dropTag actionTag line))) input
    else if startsWithL actionInputTag line then
      match j (String.mk (pyStripL (dropTag actionInputTag line))) with
      | some v => scanLines j rest action (slotOfJson v)
      | none =>
        scanLines j rest action
          (some (JsonVal.str (String.mk (pyStripL (dropTag actionInputTag line)))))
    else if startsWithL answerTag line then
      (action, input, some (pyStripL (dropTag answerTag line) ++ '\n' :: joinNL rest))
    else
      scanLines j rest action input

/-- ReActBackend.__parse: strip and split the text, require the first line
to start with "Thought:", scan the remaining lines, validate that an Action
does not come without an Action Input, synthesize an empty Answer when an
Action is present without one, and run the pydantic validation of
ReActResponse. -/
def parseCore (j : String → Option JsonVal) (text : String) :
    Except ParseErr ReActResponse :=
  match splitOnChar '\n' (pyStripL text.data) with
  | [] => Except.error ParseErr.formatException
  | first :: rest =>
    if startsWithL thoughtTag first then
      let scanned := scanLines j rest none none
      if scanned.1.isSome && scanned.2.1.isNone then
        Except.error (ParseErr.valueError "Action specified without Action Input")
      else
        let answer :=
          if scanned.1.isSome && scanned.2.2.isNone then some ([] : List Char)
          else scanned.2.2
        match validateActionInput scanned.2.1 with
        | Except.error e => Except.error e
        | Except.ok ai =>
          Except.ok
            { Thought := String.mk (pyStripL (dropTag thoughtTag first)),
              Action := scanned.1.map String.mk,
              ActionInput := ai,
              Answer := answer.map String.mk }
    else Except.error ParseErr.formatException

/-- ReActBackend.parse_for_result: the Answer field of the parse. -/
def parse_for_result (j : String → Option JsonVal) (text : String) :
    Except ParseErr (Option String) :=
  (parseCore j text).map (fun r => r.Answer)

/-- ReActBackend.parse_for_tool_calls: the empty list when response.Action
is falsy (None or the empty string), otherwise the single pair of the
action name and the parsed arguments. -/
def parse_for_tool_calls (j : String → Option JsonVal) (text : String) :
    Except ParseErr (List (String × Option (List (String × JsonVal)))) :=
  (parseCore j text).map (fun r =>
    match r.Action with
    | none => []
    | some a => if a = "" then [] else [(a, r.ActionInput)])

/-- Python json.loads restricted to the concrete remainders the theorems
below exercise: "5" is valid JSON for the number 5, an empty pair of braces
is valid JSON for the empty object, and every other string appearing below
is invalid JSON. -/
def jsonLoadsX : String → Option JsonVal := fun s =>
  if s = "5" then some (JsonVal.num 5)
  else if s = "\x7b\x7d" then some (JsonVal.obj [])
  else none

/-- The prefix of the line list that the scan loop examines for Action and
Action Input directives: everything before the first "Answer:" line. -/
def linesScanned (lines : List (List Char)) : List (List Char) :=
  lines.takeWhile (fun l => !startsWithL answerTag l)

/-- The first non-empty line of the raw text (before any stripping),
formalizing the wording of the claims about the leading Thought line. -/
def firstNonEmptyLine (text : String) : Option (List Char) :=
  (splitOnChar '\n' text.data).find? (fun l => !(l == []))

/-- Retry.retry_invoke from src/agents/flow/retry.py, lines 80-97. The
base tool is modelled as a function from the zero-based index of the
invocation attempt to its outcome (ok result or raised exception), matched
gives whether an exception is an instance of the configured
self._exceptions tuple, fuel is max_retries minus the attempts counter of
the Python loop, and made counts the calls to self._tool.invoke performed
so far. An unmatched exception propagates out of the try uncaught; a
matched exception with no fuel left breaks the loop and the last exception
is re-raised. The function returns the outcome together with the total
number of underlying invocation attempts. time.sleep between attempts does
not affect the values computed and is not modelled. -/
def retryLoop {ε α : Type} (invoke : Nat → Except ε α) (matched : ε → Bool) :
    Nat → Nat → Except ε α × Nat
  | 0, made =>
    match invoke made with
    | Except.ok a => (Except.ok a, made + 1)
    | Except.error e => (Except.error e, made + 1)
  | fuel + 1, made =>
    match invoke made with
    | Except.ok a => (Except.ok a, made + 1)
    | Except.error e =>
      if matched e then retryLoop invoke matched fuel (made + 1)
      else (Except.error e, made + 1)

/-- One call of the wrapped tool: the Python loop starts with attempts = 0,
so the remaining retry budget is max_retries and no attempt has been
made. -/
def retry_invoke {ε α : Type} (invoke : Nat → Except ε α) (matched : ε → Bool)
    (maxRetries : Nat) : Except ε α × Nat :=
  retryLoop invoke matched maxRetries 0

/-- Modelled from the spec: the fields of a Tool that the Retry constructor
reads and forwards (src/agents/tools/tool.py is not under src/). A tool
exposes a name, a description, an ordered argument schema of
(argument name, type label, description, required flag), and examples. -/
structure ToolSpec where
  name : String
  args : List (String × String × String × Bool)
  description : String
  examples : List String

/-- Python truthiness of an Optional[str]: None and the empty string are
falsy. -/
def pyFalsyStr : Option String → Bool
  | none => true
  | some s => s == ""

/-- Retry.__init__ from src/agents/flow/retry.py, lines 52-64: the fields
of the Tool the constructor builds. When name is falsy it defaults to
tool.name followed by "::retry_" and max_retries; when description is
falsy it defaults to the base description; args and examples are always
the base tool fields. The func field (the retry_invoke bound method) is
modelled separately by retryLoop above. -/
def mkRetryTool (tool : ToolSpec) (maxRetries : Nat)
    (nameArg descriptionArg : Option String) : ToolSpec :=
  { name :=
      if pyFalsyStr nameArg then tool.name ++ "::retry_" ++ toString maxRetries
      else nameArg.getD "",
    args := tool.args,
    description :=
      if pyFalsyStr descriptionArg then tool.description
      else descriptionArg.getD "",
    examples := tool.examples }

/-- The only listener kind the registrar code ever appends to a tool:
the bound classmethod Registrar._on_tool_call. -/
inductive RegHook where
  | onToolCall

/-- Modelled from the spec: the part of a Tool the registrar touches
(src/agents/tools/tool.py is not under src/): its identity and the list of
call listeners it notifies synchronously, once each, on every
invocation. -/
structure RegTool where
  id : String
  onCallListeners : List RegHook

/-- Modelled from the spec: Tool.add_on_call_listener appends to the tool
call-listener list. -/
def add_on_call_listener (t : RegTool) (h : RegHook) : RegTool :=
  { t with onCallListeners := t.onCallListeners ++ [h] }

/-- The class-level state of Registrar: the _tools mapping (a Python dict,
insertion-ordered), the _enabled flag, and the external listeners appended
by add_tool_call_listener, modelled by their count since only how many
executor tasks are submitted matters here. -/
structure RegistrarState where
  tools : List (String × RegTool)
  enabled : Bool
  extListenerCount : Nat

/-- Python dict assignment d[k] = v: overwrite in place when the key is
present, otherwise append at the end. -/
def dictSet (k : String) (v : RegTool) : List (String × RegTool) → List (String × RegTool)
  | [] => [(k, v)]
  | (k', v') :: rest =>
    if k' == k then (k, v) :: rest else (k', v') :: dictSet k v rest

/-- Registrar.register (registrar.py lines 21-28). The statement
`if tool.id in cls._tools: pass` has no effect and is reproduced as no
effect here. The dict stores the very object that is then mutated by
tool.add_on_call_listener, so the stored entry carries the appended hook;
the updated tool object is also returned so that a caller holding the same
reference can be modelled. -/
def registrarRegister (s : RegistrarState) (t : RegTool) : RegistrarState × RegTool :=
  let t' := add_on_call_listener t RegHook.onToolCall
  ({ s with tools := dictSet t.id t' s.tools }, t')

/-- Registrar.get_tools: list(cls._tools.values()), a snapshot of the
registered tools. -/
def get_tools (s : RegistrarState) : List RegTool :=
  s.tools.map (fun p => p.2)

/-- How many executor tasks one invocation of the tool produces:
the tool synchronously calls each entry of its call-listener list (all of
them are Registrar._on_tool_call), and each such call submits one task per
external listener when the registrar is enabled, none when disabled
(registrar.py lines 31-38). -/
def submissionsPerInvocation (s : RegistrarState) (t : RegTool) : Nat :=
  t.onCallListeners.length * (if s.enabled then s.extListenerCount else 0)

/-- Registering the same tool object twice: the second call receives the
object as already mutated by the first call. -/
def registerTwice (s : RegistrarState) (t : RegTool) : RegistrarState × RegTool :=
  registrarRegister (registrarRegister s t).1 (registrarRegister s t).2

/-- A Python value appearing among tool-call arguments, as rendered by
ReActBackend.tool_results_to_prompts: a str is quoted, an int renders by
its decimal form, and any other value contributes its f-string rendering,
carried here as the rendered text. -/
inductive PyVal where
  | vstr (s : String)
  | vint (n : Int)
  | vother (rendered : String)

/-- The text a single argument value contributes after the equals sign
(react.py lines 129-132). -/
def renderVal : PyVal → String
  | PyVal.vstr s => "\"" ++ s ++ "\""
  | PyVal.vint n => toString n
  | PyVal.vother r => r

/-- The argument-list loop of tool_results_to_prompts (react.py lines
122-132): a comma-space before every argument except the first. -/
def renderArgsLoop : Bool → List (String × PyVal) → String
  | _, [] => ""
  | firstTool, (a, v) :: rest =>
    (if firstTool then "" else ", ") ++ a ++ "=" ++ renderVal v ++
      renderArgsLoop false rest

/-- The content of the system message built for one completed tool call
(react.py lines 120-133): note the leading "---" separator line. -/
def toolResultBlock (name : String) (args : List (String × PyVal)) (result : String) : String :=
  "---\n" ++ name ++ "(" ++ renderArgsLoop true args ++ ") returned:\n" ++ result ++ "\n"

/-- One role/content entry of a Prompt. -/
structure ChatMessage where
  role : String
  content : String

/-- ReActBackend.tool_results_to_prompts (react.py lines 116-140): append
to the prompt, in order, one system-role message per completed call. -/
def tool_results_to_prompts (prompt : List ChatMessage)
    (results : List (String × List (String × PyVal) × String)) : List ChatMessage :=
  match results with
  | [] => prompt
  | (name, args, result) :: rest =>
    tool_results_to_prompts
      (prompt ++ [{ role := "system", content := toolResultBlock name args result }]) rest

/-- A base tool for the retry witnesses: fails on the first two attempts
with distinct errors, then succeeds with 42. -/
def failTwice : Nat → Except String Nat := fun i =>
  if i < 2 then Except.error ("boom" ++ toString i) else Except.ok 42

/-! Helper lemmas about the string primitives and the scan loop. -/

theorem startsWithL_iff (tag l : List Char) :
    startsWithL tag l = true ↔ ∃ xs, l = tag ++ xs := by
  induction tag generalizing l with
  | nil => simp [startsWithL]
  | cons p ps ih =>
    cases l with
    | nil => simp [startsWithL]
    | cons x xs =>
      simp only [startsWithL, Bool.and_eq_true, beq_iff_eq, ih, List.cons_append,
        List.cons.injEq]
      constructor
      · rintro ⟨rfl, ys, rfl⟩
        exact ⟨ys, rfl, rfl⟩
      · rintro ⟨ys, rfl, rfl⟩
        exact ⟨rfl, ys, rfl⟩

theorem dropTag_append (tag xs : List Char) : dropTag tag (tag ++ xs) = xs := by
  simp [dropTag]

theorem pyStripL_cons_nonspace (c : Char) (t : List Char) (h : isPySpace c = false) :
    pyStripL (c :: t) ≠ [] := by
  show dropTrailing (List.dropWhile isPySpace (c :: t)) ≠ []
  rw [List.dropWhile_cons]
  simp only [h, Bool.false_eq_true, if_false]
  cases hd : dropTrailing t with
  | nil => simp [dropTrailing, hd, h]
  | cons x xs => simp [dropTrailing, hd]

theorem blankAnswerFalse (xs : List Char) :
    pyStripL (answerTag ++ xs) ≠ [] :=
  pyStripL_cons_nonspace 'A' _ rfl

theorem actionOfAnswerFalse (xs : List Char) :
    startsWithL actionTag (answerTag ++ xs) = false := rfl

theorem actionInputOfAnswerFalse (xs : List Char) :
    startsWithL actionInputTag (answerTag ++ xs) = false := rfl

theorem answerOfAnswerTrue (xs : List Char) :
    startsWithL answerTag (answerTag ++ xs) = true := rfl

theorem blankActionFalse (xs : List Char) :
    pyStripL (actionTag ++ xs) ≠ [] :=
  pyStripL_cons_nonspace 'A' _ rfl

theorem answerOfActionFalse (xs : List Char) :
    startsWithL answerTag (actionTag ++ xs) = false := rfl

theorem actionInputOfActionFalse (xs : List Char) :
    startsWithL actionInputTag (actionTag ++ xs) = false := rfl

theorem blankActionInputFalse (xs : List Char) :
    pyStripL (actionInputTag ++ xs) ≠ [] :=
  pyStripL_cons_nonspace 'A' _ rfl

theorem actionOfActionInputFalse (xs : List Char) :
    startsWithL actionTag (actionInputTag ++ xs) = false := rfl

theorem answerOfActionInputFalse (xs : List Char) :
    startsWithL answerTag (actionInputTag ++ xs) = false := rfl

theorem linesScanned_cons_of_answer (line : List Char) (rest : List (List Char))
    (h : startsWithL answerTag line = true) :
    linesScanned (line :: rest) = [] := by
  simp [linesScanned, List.takeWhile, h]

theorem linesScanned_cons_of_not_answer (line : List Char) (rest : List (List Char))
    (h : startsWithL answerTag line = false) :
    linesScanned (line :: rest) = line :: linesScanned rest := by
  simp [linesScanned, List.takeWhile, h]

theorem scanLines_input_none (j : String → Option JsonVal) :
    ∀ (lines : List (List Char)) (action : Option (List Char)),
      (∀ l ∈ linesScanned lines, startsWithL actionInputTag l = false) →
      (scanLines j lines action none).2.1 = none := by
  intro lines
  induction lines with
  | nil => intro action _; rfl
  | cons line rest ih =>
    intro action h
    by_cases ha : startsWithL answerTag line = true
    · obtain ⟨xs, rfl⟩ := (startsWithL_iff _ _).mp ha
      simp [scanLines, blankAnswerFalse, actionOfAnswerFalse, actionInputOfAnswerFalse,
        answerOfAnswerTrue]
    · have ha' : startsWithL answerTag line = false := by
        simpa using ha
      rw [linesScanned_cons_of_not_answer line rest ha'] at h
      have hline : startsWithL actionInputTag line = false :=
        h line (List.mem_cons_self line _)
      have hrest : ∀ l ∈ linesScanned rest, startsWithL actionInputTag l = false :=
        fun l hl => h l (List.mem_cons_of_mem _ hl)
      by_cases hb : (pyStripL line == []) = true
      · simp only [scanLines, hb, if_true]
        exact ih action hrest
      · have hb' : (pyStripL line == []) = false := by
          simpa using hb
      
        by_cases hact : startsWithL actionTag line = true
        · simp only [scanLines, hb', Bool.false_eq_true, if_false, hact, if_true]
          exact ih _ hrest
        · have hact' : startsWithL actionTag line = false := by
            simpa using hact
          simp only [scanLines, hb', hact', hline, ha', Bool.false_eq_true, if_false]
          exact ih action hrest

theorem scanLines_action_some (j : String → Option JsonVal) :
    ∀ (lines : List (List Char)) (action : Option (List Char)) (input : Option JsonVal),
      (action.isSome = true ∨ ∃ l ∈ linesScanned lines, startsWithL actionTag l = true) →
      (scanLines j lines action input).1.isSome = true := by
  intro lines
  induction lines with
  | nil =>
    intro action input h
    rcases h with h | ⟨l, hl, _⟩
    · simpa [scanLines] using h
    · simp [linesScanned] at hl
  | cons line rest ih =>
    intro action input h
    by_cases ha : startsWithL answerTag line = true
    · obtain ⟨xs, rfl⟩ := (startsWithL_iff _ _).mp ha
      rcases h with h | ⟨l, hl, hact⟩
      · simpa [scanLines, blankAnswerFalse, actionOfAnswerFalse, actionInputOfAnswerFalse,
          answerOfAnswerTrue] using h
      · rw [linesScanned_cons_of_answer _ rest (answerOfAnswerTrue xs)] at hl
        simp at hl
    · have ha' : startsWithL answerTag line = false := by
        simpa using ha
      have hnext : (∀ (a : Option (List Char)) (i : Option JsonVal),
          a.isSome = true ∨ (∃ l ∈ linesScanned rest, startsWithL actionTag l = true) →
          (scanLines j rest a i).1.isSome = true) := fun a i hh => ih a i hh
      rw [linesScanned_cons_of_not_answer line rest ha'] at h
      by_cases hb : (pyStripL line == []) = true
      · simp only [scanLines, hb, if_true]
        apply hnext
        rcases h with h | ⟨l, hl, hact⟩
        · exact Or.inl h
        · rcases List.mem_cons.mp hl with rfl | hl'
          · obtain ⟨xs, rfl⟩ := (startsWithL_iff _ _).mp hact
            have hbeq : pyStripL (actionTag ++ xs) = [] := by simpa using hb
            exact absurd hbeq (blankActionFalse xs)
          · exact Or.inr ⟨l, hl', hact⟩
      · have hb' : (pyStripL line == []) = false := by
          simpa using hb
        by_cases hact : startsWithL actionTag line = true
        · simp only [scanLines, hb', Bool.false_eq_true, if_false, hact, if_true]
          exact hnext _ input (Or.inl rfl)
        · have hact' : startsWithL actionTag line = false := by
            simpa using hact
          have h' : action.isSome = true ∨
              ∃ l ∈ linesScanned rest, startsWithL actionTag l = true := by
            rcases h with h | ⟨l, hl, hactl⟩
            · exact Or.inl h
            · rcases List.mem_cons.mp hl with rfl | hl'
              · rw [hactl] at hact'
                exact absurd hact' (by simp)
              · exact Or.inr ⟨l, hl', hactl⟩
          by_cases hai : startsWithL actionInputTag line = true
          · simp only [scanLines, hb', hact', hai, Bool.false_eq_true, if_false, if_true]
            cases hj : j (String.mk (pyStripL (dropTag actionInputTag line))) with
            | some v => exact hnext _ _ h'
            | none => exact hnext _ _ h'
          · have hai' : startsWithL actionInputTag line = false := by
              simpa using hai
            simp only [scanLines, hb', hact', hai', ha', Bool.false_eq_true, if_false]
            exact hnext _ _ h'

theorem scanLines_answer (j : String → Option JsonVal) :
    ∀ (pre : List (List Char)) (ansTail : List Char) (post : List (List Char))
      (action : Option (List Char)) (input : Option JsonVal),
      (∀ l ∈ pre, startsWithL actionTag l = false ∧ startsWithL answerTag l = false) →
      scanLines j (pre ++ (answerTag ++ ansTail) :: post) action input =
        (action, (scanLines j pre action input).2.1,
          some (pyStripL ansTail ++ '\n' :: joinNL post)) := by
  intro pre
  induction pre with
  | nil =>
    intro ansTail post action input _
    simp [scanLines, blankAnswerFalse, actionOfAnswerFalse, actionInputOfAnswerFalse,
      answerOfAnswerTrue, dropTag_append]
  | cons p pre' ih =>
    intro ansTail post action input h
    have hp := h p (List.mem_cons_self p _)
    have hrest : ∀ l ∈ pre',
        startsWithL actionTag l = false ∧ startsWithL answerTag l = false :=
      fun l hl => h l (List.mem_cons_of_mem _ hl)
    by_cases hb : (pyStripL p == []) = true
    · simp only [List.cons_append, scanLines, hb, if_true]
      exact ih ansTail post action input hrest
    · have hb' : (pyStripL p == []) = false := by
        simpa using hb
      by_cases hai : startsWithL actionInputTag p = true
      · simp only [List.cons_append, scanLines, hb', hp.1, hai,
          Bool.false_eq_true, if_false, if_true]
        cases hj : j (String.mk (pyStripL (dropTag actionInputTag p))) with
        | some v => exact ih ansTail post action (slotOfJson v) hrest
        | none =>
          exact ih ansTail post action
            (some (JsonVal.str (String.mk (pyStripL (dropTag actionInputTag p))))) hrest
      · have hai' : startsWithL actionInputTag p = false := by
          simpa using hai
        simp only [List.cons_append, scanLines, hb', hp.1, hai', hp.2,
          Bool.false_eq_true, if_false]
        exact ih ansTail post action input hrest

theorem retryLoop_ok_spec {ε α : Type} (invoke : Nat → Except ε α) (matched : ε → Bool)
    (v : α) (errs : Nat → ε) :
    ∀ (k fuel made : Nat),
      (∀ i, i < k → invoke (made + i) = Except.error (errs (made + i))) →
      (∀ i, i < k → matched (errs (made + i)) = true) →
      invoke (made + k) = Except.ok v →
      (k ≤ fuel → retryLoop invoke matched fuel made = (Except.ok v, made + k + 1)) ∧
      (fuel < k → retryLoop invoke matched fuel made =
        (Except.error (errs (made + fuel)), made + fuel + 1)) := by
  intro k
  induction k with
  | zero =>
    intro fuel made _ _ hok
    have h0 : invoke made = Except.ok v := by simpa using hok
    constructor
    · intro _
      cases fuel with
      | zero => simp [retryLoop, h0]
      | succ f => simp [retryLoop, h0]
    · intro h
      omega
  | succ n ih =>
    intro fuel made hfail hmatch hok
    have h0 : invoke made = Except.error (errs made) := by
      simpa using hfail 0 (by omega)
    have hm0 : matched (errs made) = true := by
      simpa using hmatch 0 (by omega)
    have hfail' : ∀ i, i < n → invoke (made + 1 + i) = Except.error (errs (made + 1 + i)) := by
      intro i hi
      have h := hfail (i + 1) (by omega)
      have e : made + (i + 1) = made + 1 + i := by omega
      rwa [e] at h
    have hmatch' : ∀ i, i < n → matched (errs (made + 1 + i)) = true := by
      intro i hi
      have h := hmatch (i + 1) (by omega)
      have e : made + (i + 1) = made + 1 + i := by omega
      rwa [e] at h
    have hok' : invoke (made + 1 + n) = Except.ok v := by
      have e : made + (n + 1) = made + 1 + n := by omega
      rwa [e] at hok
    constructor
    · intro hle
      cases fuel with
      | zero => omega
      | succ f =>
        have hrec := (ih f (made + 1) hfail' hmatch' hok').1 (by omega)
        have e : made + 1 + n + 1 = made + (n + 1) + 1 := by omega
        rw [e] at hrec
        simpa [retryLoop, h0, hm0] using hrec
    · intro hlt
      cases fuel with
      | zero =>
        simp [retryLoop, h0, hm0]
      | succ f =>
        have hrec := (ih f (made + 1) hfail' hmatch' hok').2 (by omega)
        have e1 : made + 1 + f = made + (f + 1) := by omega
        rw [e1] at hrec
        simpa [retryLoop, h0, hm0] using hrec

theorem retryLoop_unmatched_spec {ε α : Type} (invoke : Nat → Except ε α)
    (matched : ε → Bool) (e : ε) (errs : Nat → ε) :
    ∀ (n fuel made : Nat),
      (∀ i, i < n → invoke (made + i) = Except.error (errs (made + i))) →
      (∀ i, i < n → matched (errs (made + i)) = true) →
      invoke (made + n) = Except.error e →
      matched e = false →
      n ≤ fuel →
      retryLoop invoke matched fuel made = (Except.error e, made + n + 1) := by
  intro n
  induction n with
  | zero =>
    intro fuel made _ _ he hum _
    have h0 : invoke made = Except.error e := by simpa using he
    cases fuel with
    | zero => simp [retryLoop, h0, hum]
    | succ f => simp [retryLoop, h0, hum]
  | succ n ih =>
    intro fuel made hfail hmatch he hum hle
    have h0 : invoke made = Except.error (errs made) := by
      simpa using hfail 0 (by omega)
    have hm0 : matched (errs made) = true := by
      simpa using hmatch 0 (by omega)
    have hfail' : ∀ i, i < n → invoke (made + 1 + i) = Except.error (errs (made + 1 + i)) := by
      intro i hi
      have h := hfail (i + 1) (by omega)
      have eq1 : made + (i + 1) = made + 1 + i := by omega
      rwa [eq1] at h
    have hmatch' : ∀ i, i < n → matched (errs (made + 1 + i)) = true := by
      intro i hi
      have h := hmatch (i + 1) (by omega)
      have eq1 : made + (i + 1) = made + 1 + i := by omega
      rwa [eq1] at h
    have he' : invoke (made + 1 + n) = Except.error e := by
      have eq1 : made + (n + 1) = made + 1 + n := by omega
      rwa [eq1] at he
    cases fuel with
    | zero => omega
    | succ f =>
      have hrec := ih f (made + 1) hfail' hmatch' he' hum (by omega)
      have eq2 : made + 1 + n + 1 = made + (n + 1) + 1 := by omega
      rw [eq2] at hrec
      simpa [retryLoop, h0, hm0] using hrec

theorem stringMkNil : String.mk ([] : List Char) = "" := rfl

/-! The claims. -/

/-- Claim C1 (code bug): the claim says parsing never raises on account of
the Action Input value, with non-object JSON passed through as-is and
invalid JSON kept as the raw trimmed string. The code keeps those values in
the intermediate dict exactly as the claim says, but the pydantic field
ActionInput is typed Optional[Dict[str, Any]], so ReActResponse(**results)
then raises a ValidationError for both of them: a bare number remainder and
an invalid JSON remainder each make parsing raise. -/
theorem C1_code_bug :
    parseCore jsonLoadsX "Thought: t\nAction: lookup\nAction Input: 5" =
      Except.error ParseErr.validationError ∧
    parseCore jsonLoadsX "Thought: t\nAction: lookup\nAction Input: not json" =
      Except.error ParseErr.validationError := ⟨rfl, rfl⟩

/-- Claim C2 counterexample: with a valid Thought line, an Action line and
no Action Input line, the code raises ValueError("Action specified without
Action Input") at react.py line 83, not the module FormatException the
claim names, so the claim as stated is false at this input. -/
theorem C2_counterexample :
    parseCore jsonLoadsX "Thought: t\nAction: lookup" =
      Except.error (ParseErr.valueError "Action specified without Action Input") ∧
    (Except.error (ParseErr.valueError "Action specified without Action Input") :
      Except ParseErr ReActResponse) ≠ Except.error ParseErr.formatException := by
  refine ⟨rfl, ?_⟩
  intro h
  injection h with h'
  exact ParseErr.noConfusion h'

/-- Claim C2 as amended: for every text with a valid leading Thought line
that contains at least one Action line but no Action Input line among the
lines scanned before any Answer line, parsing fails with a
ValueError carrying the message "Action specified without Action Input"
(a ValueError rather than the FormatError the claim names), even if an
Answer line is also present. -/
theorem C2_amended (j : String → Option JsonVal) (text : String)
    (first : List Char) (rest : List (List Char))
    (hsplit : splitOnChar '\n' (pyStripL text.data) = first :: rest)
    (hth : startsWithL thoughtTag first = true)
    (hA : ∃ l ∈ linesScanned rest, startsWithL actionTag l = true)
    (hNI : ∀ l ∈ linesScanned rest, startsWithL actionInputTag l = false) :
    parseCore j text =
      Except.error (ParseErr.valueError "Action specified without Action Input") := by
  have hin := scanLines_input_none j rest none hNI
  have hac := scanLines_action_some j rest none none (Or.inr hA)
  simp [parseCore, hsplit, hth, hin, hac]

/-- Claim C2 witness: a concrete instance of the amended claim, with an
Answer line also present. -/
theorem C2_witness :
    parseCore jsonLoadsX "Thought: t\nAction: lookup\nAnswer: ignored" =
      Except.error (ParseErr.valueError "Action specified without Action Input") := by
  apply C2_amended jsonLoadsX _ ("Thought: t".data)
    ["Action: lookup".data, "Answer: ignored".data]
  · rfl
  · rfl
  · decide
  · decide

/-- Claim C3 (code bug): the claim says re-registering a tool of the same
identity keeps the existing mapping entry and does not duplicate listener
notifications. In registrar.py lines 23-28 the guard
`if tool.id in cls._tools: pass` does nothing: the mapping entry is
overwritten and tool.add_on_call_listener(cls._on_tool_call) runs again,
so after registering the same tool twice its listener list holds the
dispatch hook twice, and one invocation with one external listener and the
registrar enabled submits two listener tasks instead of one. The length of
get_tools() does stay 1. -/
theorem C3_code_bug :
    (get_tools (registerTwice { tools := [], enabled := true, extListenerCount := 1 }
        { id := "search", onCallListeners := [] }).1).length = 1 ∧
    submissionsPerInvocation
      (registrarRegister { tools := [], enabled := true, extListenerCount := 1 }
        { id := "search", onCallListeners := [] }).1
      (registrarRegister { tools := [], enabled := true, extListenerCount := 1 }
        { id := "search", onCallListeners := [] }).2 = 1 ∧
    submissionsPerInvocation
      (registerTwice { tools := [], enabled := true, extListenerCount := 1 }
        { id := "search", onCallListeners := [] }).1
      (registerTwice { tools := [], enabled := true, extListenerCount := 1 }
        { id := "search", onCallListeners := [] }).2 = 2 :=
  ⟨rfl, rfl, rfl⟩

/-- Claim C4 (confirmed): for a base tool that fails on its first k
attempts with matched failures and succeeds on attempt k+1, the wrapped
invocation with max_retries at least k returns the success result after
exactly k+1 underlying attempts, and with max_retries below k it performs
exactly max_retries+1 attempts and raises the failure of attempt
max_retries+1 (the last one encountered), not the first. -/
theorem C4_retry_semantics {ε α : Type} (invoke : Nat → Except ε α) (matched : ε → Bool)
    (k maxRetries : Nat) (v : α) (errs : Nat → ε)
    (hfail : ∀ i, i < k → invoke i = Except.error (errs i))
    (hmatch : ∀ i, i < k → matched (errs i) = true)
    (hok : invoke k = Except.ok v) :
    (k ≤ maxRetries → retry_invoke invoke matched maxRetries = (Except.ok v, k + 1)) ∧
    (maxRetries < k → retry_invoke invoke matched maxRetries =
      (Except.error (errs maxRetries), maxRetries + 1)) := by
  have h := retryLoop_ok_spec invoke matched v errs k maxRetries 0
    (by simpa using hfail) (by simpa using hmatch) (by simpa using hok)
  simpa [retry_invoke] using h

/-- Claim C4 witness: a tool failing twice then succeeding, wrapped with
max_retries 5 succeeds on the third attempt; wrapped with max_retries 1 it
stops after two attempts and reports the second failure. -/
theorem C4_witness :
    retry_invoke failTwice (fun _ => true) 5 = (Except.ok 42, 3) ∧
    retry_invoke failTwice (fun _ => true) 1 = (Except.error "boom1", 2) := by
  have hfail : ∀ i, i < 2 → failTwice i = Except.error ("boom" ++ toString i) := by
    intro i hi
    interval_cases i
    · rfl
    · rfl
  have hmatch : ∀ i, i < 2 →
      (fun (_ : String) => true) ("boom" ++ toString i) = true := fun _ _ => rfl
  have hok : failTwice 2 = Except.ok 42 := rfl
  constructor
  · have h := (C4_retry_semantics failTwice (fun _ => true) 2 5 42
      (fun i => "boom" ++ toString i) hfail hmatch hok).1 (by omega)
    simpa using h
  · have h := (C4_retry_semantics failTwice (fun _ => true) 2 1 42
      (fun i => "boom" ++ toString i) hfail hmatch hok).2 (by omega)
    simpa using h

/-- Claim C6 counterexample: constructing the Retry wrapper with neither
name nor description override gives the name "search::retry_3" for a base
tool named "search" with max_retries 3, which is not identical to the base
name, exactly as the constructor documents
(name defaults to tool.name followed by "::retry_" and max_retries). -/
theorem C6_counterexample :
    (mkRetryTool
      { name := "search", args := [("q", "str", "the query", true)],
        description := "find things", examples := [] } 3 none none).name =
      "search::retry_3" ∧
    ("search::retry_3" : String) ≠ "search" := by
  refine ⟨rfl, ?_⟩
  decide

/-- Claim C6 as amended: without overrides the wrapper keeps the base
tool's arguments, description and examples unchanged, and its name is the
base name suffixed with "::retry_" and the max_retries count rather than
the identical base name. -/
theorem C6_amended (tool : ToolSpec) (maxRetries : Nat) :
    mkRetryTool tool maxRetries none none =
      { name := tool.name ++ "::retry_" ++ toString maxRetries,
        args := tool.args,
        description := tool.description,
        examples := tool.examples } := rfl

/-- Claim C7 (confirmed): whenever the base tool raises an exception whose
kind is outside the configured matched set - here on attempt n+1 after n
earlier matched failures - the wrapper re-raises that exception
immediately: exactly n+1 attempts are made even though maxRetries - n
retries remain in the budget. -/
theorem C7_unmatched_no_retry {ε α : Type} (invoke : Nat → Except ε α)
    (matched : ε → Bool) (n maxRetries : Nat) (e : ε) (errs : Nat → ε)
    (hfail : ∀ i, i < n → invoke i = Except.error (errs i))
    (hmatch : ∀ i, i < n → matched (errs i) = true)
    (he : invoke n = Except.error e)
    (hum : matched e = false)
    (hbudget : n ≤ maxRetries) :
    retry_invoke invoke matched maxRetries = (Except.error e, n + 1) := by
  have h := retryLoop_unmatched_spec invoke matched e errs n maxRetries 0
    (by simpa using hfail) (by simpa using hmatch) (by simpa using he) hum hbudget
  simpa [retry_invoke] using h

/-- Claim C7 witness: a tool that always raises an unmatched exception is
invoked exactly once under a budget of 7 retries, and the exception is
re-raised unchanged. -/
theorem C7_witness :
    retry_invoke (fun _ => (Except.error "fatal" : Except String Nat)) (fun _ => false) 7 =
      (Except.error "fatal", 1) := by
  have h := C7_unmatched_no_retry
    (fun _ => (Except.error "fatal" : Except String Nat)) (fun _ => false)
    0 7 "fatal" (fun _ => "fatal")
    (by intro i hi; omega) (by intro i hi; omega) rfl rfl (by omega)
  simpa using h

/-- Claim C5 counterexample: the end-to-end scenario B input parses to the
final answer "The capital is Paris\n", not the exact string
"The capital is Paris" the claim states: the code always appends a newline
and the newline-join of the remaining lines (empty here) after the Answer
remainder (react.py lines 74-78). -/
theorem C5_counterexample :
    parse_for_result jsonLoadsX "Thought: done\nAnswer: The capital is Paris" =
      Except.ok (some "The capital is Paris\n") ∧
    some ("The capital is Paris\n" : String) ≠ some "The capital is Paris" := by
  refine ⟨rfl, ?_⟩
  decide

/-- Claim C5 as amended: for every text with a valid leading Thought line
containing an Answer line with no Action line scanned before it - and
whose Action Input lines scanned before the Answer, if any, leave a value
the pydantic validation accepts (absent, JSON null or a JSON object; a
non-object value raises the ValidationError of claim C1 instead) - the
final answer is the trimmed remainder of the Answer line, then a newline,
then all subsequent lines newline-joined and unmodified (so a final Answer
line with no following lines still gains one trailing newline); scanning
stops at the Answer line, whose following lines are copied verbatim rather
than interpreted. Scenario B therefore parses to
"The capital is Paris\n". -/
theorem C5_amended (j : String → Option JsonVal) (text : String)
    (first ansTail : List Char) (pre post : List (List Char))
    (hsplit : splitOnChar '\n' (pyStripL text.data) =
      first :: (pre ++ (answerTag ++ ansTail) :: post))
    (hth : startsWithL thoughtTag first = true)
    (hpre : ∀ l ∈ pre, startsWithL actionTag l = false ∧
      startsWithL answerTag l = false)
    (hinput : (scanLines j pre none none).2.1 = none ∨
      ∃ fields, (scanLines j pre none none).2.1 = some (JsonVal.obj fields)) :
    parse_for_result j text =
      Except.ok (some (String.mk (pyStripL ansTail ++ '\n' :: joinNL post))) := by
  have hscan := scanLines_answer j pre ansTail post none none hpre
  rcases hinput with hin | ⟨fields, hin⟩
  · simp [parse_for_result, parseCore, hsplit, hth, hscan, hin,
      validateActionInput, Except.map]
  · simp [parse_for_result, parseCore, hsplit, hth, hscan, hin,
      validateActionInput, Except.map]

/-- Claim C5 witness: scenario B through the amended claim, and an input
with an object-valued Action Input line scanned before the Answer line,
which is inside the amended claim's scope. -/
theorem C5_witness :
    parse_for_result jsonLoadsX "Thought: done\nAnswer: The capital is Paris" =
      Except.ok (some "The capital is Paris\n") ∧
    parse_for_result jsonLoadsX "Thought: t\nAction Input: \x7b\x7d\nAnswer: x" =
      Except.ok (some "x\n") := by
  constructor
  · have h := C5_amended jsonLoadsX "Thought: done\nAnswer: The capital is Paris"
      ("Thought: done".data) (" The capital is Paris".data) [] []
      rfl rfl (by intro l hl; cases hl) (Or.inl rfl)
    simpa using h
  · have h := C5_amended jsonLoadsX "Thought: t\nAction Input: \x7b\x7d\nAnswer: x"
      ("Thought: t".data) (" x".data) ["Action Input: \x7b\x7d".data] []
      rfl rfl (by decide) (Or.inr ⟨[], rfl⟩)
    simpa using h

/-- Claim C8 counterexample: the input "  Thought: hi" has the single
non-empty raw line "  Thought: hi", which does not start with "Thought:",
yet parsing succeeds with the thought "hi": text.strip() removes the
leading spaces before the first line is examined (react.py line 44), so
the claim as stated is false at this input. -/
theorem C8_counterexample :
    firstNonEmptyLine "  Thought: hi" = some ("  Thought: hi".data) ∧
    startsWithL thoughtTag ("  Thought: hi".data) = false ∧
    parseCore jsonLoadsX "  Thought: hi" =
      Except.ok { Thought := "hi", Action := none, ActionInput := none, Answer := none } :=
  ⟨rfl, rfl, rfl⟩

/-- Claim C8 as amended: for every input text such that the first line of
the stripped text does not start with "Thought:" (including empty and
whitespace-only text, whose stripped form is the single empty line),
parsing always fails with a FormatException, regardless of subsequent
content. -/
theorem C8_amended (j : String → Option JsonVal) (text : String)
    (h : ∀ (first : List Char) (rest : List (List Char)),
      splitOnChar '\n' (pyStripL text.data) = first :: rest →
      startsWithL thoughtTag first = false) :
    parseCore j text = Except.error ParseErr.formatException := by
  cases hs : splitOnChar '\n' (pyStripL text.data) with
  | nil => simp [parseCore, hs]
  | cons first rest => simp [parseCore, hs, h first rest hs]

/-- Claim C8 witness: a text whose first line lacks the Thought prefix. -/
theorem C8_witness :
    parseCore jsonLoadsX "Answer: no thought here" =
      Except.error ParseErr.formatException := by
  apply C8_amended
  intro first rest hs
  injection hs with h1 h2
  subst h1
  rfl

/-- Claim C9 counterexample: the system message built for a completed tool
call starts with the separator line "---" (react.py line 120), so its
content is not exactly of the shape name(args) returned: result - the
claim omits the leading "---\n". -/
theorem C9_counterexample :
    tool_results_to_prompts [] [("ping", [], "pong")] =
      [{ role := "system", content := "---\nping() returned:\npong\n" }] ∧
    ("---\nping() returned:\npong\n" : String) ≠ "ping() returned:\npong\n" := by
  refine ⟨rfl, ?_⟩
  decide

/-- Claim C9 as amended: for every completed tool call the control loop
appends exactly one system-role message whose content is "---\n", then the
tool name, then the parenthesized argument list, then " returned:\n", the
result and a final newline, in completion order; string-valued arguments
are double-quoted and non-string arguments render via their natural text
form, as the concrete block for (a="x", b=123) shows. -/
theorem C9_amended :
    (∀ (prompt : List ChatMessage)
      (results : List (String × List (String × PyVal) × String)),
      tool_results_to_prompts prompt results =
        prompt ++ results.map (fun r =>
          { role := "system",
            content := "---\n" ++ r.1 ++ "(" ++ renderArgsLoop true r.2.1 ++
              ") returned:\n" ++ r.2.2 ++ "\n" })) ∧
    toolResultBlock "f" [("a", PyVal.vstr "x"), ("b", PyVal.vint 123)] "r" =
      "---\nf(a=\"x\", b=123) returned:\nr\n" := by
  constructor
  · intro prompt results
    induction results generalizing prompt with
    | nil => simp [tool_results_to_prompts]
    | cons hd tl ih =>
      obtain ⟨name, args, result⟩ := hd
      simp [tool_results_to_prompts, ih, toolResultBlock]
  · rfl

/-- Claim C10 counterexample: a text whose last Action line has an empty
trimmed remainder and that carries an Action Input line does not always
give an empty tool-call list: when the Action Input value is the bare
number 5, parse_for_tool_calls raises the pydantic ValidationError rather
than returning []. -/
theorem C10_counterexample :
    parse_for_tool_calls jsonLoadsX "Thought: t\nAction:\nAction Input: 5" =
      Except.error ParseErr.validationError ∧
    (Except.error ParseErr.validationError :
      Except ParseErr (List (String × Option (List (String × JsonVal))))) ≠
      Except.ok [] := by
  refine ⟨rfl, ?_⟩
  intro h
  exact Except.noConfusion h

/-- Claim C10 as amended: for every text with a valid leading Thought line
whose scan yields the empty string as the (last-wins) Action name and an
Action Input that parsed to a JSON object (so pydantic validation passes),
parse_for_tool_calls returns the empty list: a falsy empty-string action
name is treated as no tool call requested, even though an Action directive
was present and passed the Action-without-Action-Input validation. -/
theorem C10_amended (j : String → Option JsonVal) (text : String)
    (first : List Char) (rest : List (List Char))
    (fields : List (String × JsonVal))
    (hsplit : splitOnChar '\n' (pyStripL text.data) = first :: rest)
    (hth : startsWithL thoughtTag first = true)
    (hact : (scanLines j rest none none).1 = some [])
    (hinput : (scanLines j rest none none).2.1 = some (JsonVal.obj fields)) :
    parse_for_tool_calls j text = Except.ok [] := by
  simp [parse_for_tool_calls, parseCore, hsplit, hth, hact, hinput,
    validateActionInput, stringMkNil, Except.map]

/-- Claim C10 witness: an empty Action name with an Action Input of an
empty JSON object yields no tool calls. -/
theorem C10_witness :
    parse_for_tool_calls jsonLoadsX "Thought: t\nAction:\nAction Input: \x7b\x7d" =
      Except.ok [] := by
  apply C10_amended jsonLoadsX _ ("Thought: t".data)
    ["Action:".data, "Action Input: \x7b\x7d".data] []
  · rfl
  · rfl
  · rfl
  · rfl
